import Mathlib

/-!
Verification of the audio streaming / playback-scheduling layer of
Omni-Code-Visualizer.

The development shallowly embeds, in Lean:
  * the PCM codec and playback-buffer builder
    (`float32ToInt16`, `pcmToAudioBuffer` — the audio-utility functions
    bundled with `src/services/geminiService.ts`),
  * the gapless playback scheduler and its barge-in interruption handler
    (the `onmessage` callback of `src/components/LiveTutor.tsx`),
  * the cancellable narration pipeline (`playTTS` / `stopTTS` of
    `src/services/ttsService.ts`) as an event-step machine whose events are
    the asynchronous resumption points of the TypeScript code, and
  * the session teardown path (`stopSession` / `stopScreenShare` of
    `src/components/LiveTutor.tsx`) in an error monad where dereferencing
    a null handle faults, so that "never throws" is a provable statement.

Machine floats are modelled by exact rationals; JavaScript's `Int16Array`
element conversion (truncation toward zero) is modelled explicitly.
-/

namespace OmniViz

/-! ## PCM Codec (audio utilities shipped with `src/services/geminiService.ts`)

`float32ToInt16` clamps each sample to `[-1, 1]`, scales negative samples by
`0x8000 = 32768` and non-negative ones by `0x7FFF = 32767`, and stores the
result in an `Int16Array`; the store truncates toward zero.  The clamped,
scaled value always lies in `[-32768, 32767]`, so the 16-bit store never
wraps and is exactly truncation toward zero. -/

/-- One sample of `float32ToInt16`: `const s = Math.max(-1, Math.min(1, x));
int16[i] = s < 0 ? s * 0x8000 : s * 0x7FFF;` with the `Int16Array` store
truncating toward zero (ceiling for the negative branch, floor for the
non-negative one). -/
def f32ToI16Sample (x : ℚ) : ℤ :=
  let s := max (-1) (min 1 x)
  if s < 0 then ⌈s * 32768⌉ else ⌊s * 32767⌋

/-- `float32ToInt16` applied to a whole sample array. -/
def float32ToInt16 (samples : List ℚ) : List ℤ :=
  samples.map f32ToI16Sample

/-- The decode direction used by `pcmToAudioBuffer`:
`channelData[i] = dataInt16[...] / 32768.0`. -/
def decodeSample (i : ℤ) : ℚ := (i : ℚ) / 32768

/-! ## Playback Buffer Builder (`pcmToAudioBuffer`) -/

/-- Reinterpret a little-endian byte stream as 16-bit signed integers, the
effect of `new Int16Array(data.buffer)` on the bytes produced by
`base64Decode`.  A trailing odd byte never reaches this function: the
`Int16Array` constructor itself faults on odd byte lengths. -/
def bytesToInt16 : List ℕ → List ℤ
  | [] => []
  | [_] => []
  | lo :: hi :: rest =>
    (if lo + 256 * hi < 32768 then (lo + 256 * hi : ℤ)
     else (lo + 256 * hi : ℤ) - 65536) :: bytesToInt16 rest

/-- The decoded audio buffer produced by `ctx.createBuffer` and filled by
`pcmToAudioBuffer`. -/
structure AudioBuffer where
  numChannels : ℕ
  frameCount : ℕ
  sampleRate : ℚ
  channelData : List (List ℚ)
deriving DecidableEq, Repr

/-- Duration of an `AudioBuffer` as reported by the output device:
`frameCount / sampleRate`. -/
def AudioBuffer.duration (b : AudioBuffer) : ℚ :=
  (b.frameCount : ℚ) / b.sampleRate

/-- The failure modes of the playback buffer builder: the `Int16Array`
constructor faults (a `RangeError`) on a byte length that is not a multiple
of 2, and `ctx.createBuffer` faults (a `NotSupportedError`) when the frame
count — the IDL-truncated value of `dataInt16.length / numChannels` — is
zero. -/
inductive DecodeError
  | oddByteLength
  | zeroFrameCount
deriving DecidableEq, Repr

/-- `pcmToAudioBuffer(data, ctx, sampleRate, numChannels)`:
reinterpret the bytes as `Int16`, take `frameCount = dataInt16.length /
numChannels` (IDL-truncated to an unsigned integer, hence floor division;
`ctx.createBuffer` rejects the result when it is zero), and fill each
channel with `dataInt16[i * numChannels + channel] / 32768.0`. -/
def pcmToAudioBuffer (data : List ℕ) (sampleRate : ℚ) (numChannels : ℕ := 1) :
    Except DecodeError AudioBuffer :=
  if data.length % 2 ≠ 0 then .error .oddByteLength
  else
    let dataInt16 := bytesToInt16 data
    let frameCount := dataInt16.length / numChannels
    if frameCount = 0 then .error .zeroFrameCount
    else
      .ok { numChannels := numChannels
            frameCount := frameCount
            sampleRate := sampleRate
            channelData :=
              (List.range numChannels).map fun channel =>
                (List.range frameCount).map fun i =>
                  decodeSample (dataInt16.getD (i * numChannels + channel) 0) }

/-! ## Gapless Playback Scheduler (`onmessage` in `src/components/LiveTutor.tsx`)

State: `nextStartTimeRef` and `activeSourcesRef`.  Scheduling a decoded
buffer executes
```
const currentTime = ctx.currentTime;
if (nextStartTimeRef.current < currentTime) nextStartTimeRef.current = currentTime;
source.start(nextStartTimeRef.current);
nextStartTimeRef.current += audioBuffer.duration;
activeSourcesRef.current.add(source);
source.onended = () => activeSourcesRef.current.delete(source);
```
and the interruption branch executes
```
activeSourcesRef.current.forEach(s => s.stop());
activeSourcesRef.current.clear();
nextStartTimeRef.current = outputContextRef.current.currentTime;
```
Sources are identified by the order in which they were created; `stopped`
records every source on which `.stop()` has been called. -/

structure SchedState where
  nextStart : ℚ
  active : List ℕ
  stopped : List ℕ
  nextId : ℕ
deriving DecidableEq, Repr

/-- One schedule call: returns the start time passed to `source.start` and
the updated scheduler state. -/
def schedule (st : SchedState) (now dur : ℚ) : ℚ × SchedState :=
  let start := if st.nextStart < now then now else st.nextStart
  (start,
   { st with
       nextStart := start + dur
       active := st.active ++ [st.nextId]
       nextId := st.nextId + 1 })

/-- The `onended` callback of a scheduled source: remove it from the active
set. -/
def sourceEnded (st : SchedState) (h : ℕ) : SchedState :=
  { st with active := st.active.erase h }

/-- The barge-in interruption handler: stop every active source, clear the
active set, and reset `nextStart` to the output clock. -/
def interrupt (st : SchedState) (now : ℚ) : SchedState :=
  { st with
      stopped := st.stopped ++ st.active
      active := []
      nextStart := now }

/-- Start times produced by scheduling a sequence of `(arrival time,
duration)` pairs against an initial scheduler state. -/
def startsFrom : SchedState → List (ℚ × ℚ) → List ℚ
  | _, [] => []
  | st, nd :: rest =>
    let p := schedule st nd.1 nd.2
    p.1 :: startsFrom p.2 rest

theorem schedule_fst (st : SchedState) (now dur : ℚ) :
    (schedule st now dur).1 = max st.nextStart now := by
  unfold schedule
  rcases lt_or_ge st.nextStart now with h | h
  · simp [if_pos h, max_eq_right h.le]
  · simp [if_neg (not_lt.mpr h), max_eq_left h]

theorem schedule_fst_of_le (st : SchedState) (now dur : ℚ)
    (h : now ≤ st.nextStart) : (schedule st now dur).1 = st.nextStart := by
  rw [schedule_fst, max_eq_left h]

theorem schedule_nextStart (st : SchedState) (now dur : ℚ) :
    (schedule st now dur).2.nextStart = (schedule st now dur).1 + dur := rfl

theorem startsFrom_cons (st : SchedState) (nd : ℚ × ℚ) (rest : List (ℚ × ℚ)) :
    startsFrom st (nd :: rest) =
      (schedule st nd.1 nd.2).1 :: startsFrom (schedule st nd.1 nd.2).2 rest := rfl

theorem startsFrom_length (st : SchedState) (l : List (ℚ × ℚ)) :
    (startsFrom st l).length = l.length := by
  induction l generalizing st with
  | nil => rfl
  | cons nd rest ih => simp [startsFrom_cons, ih]

/-- Chain lemma for gapless concatenation: if buffer `k+1` arrives no later
than the scheduled end of buffer `k`, then buffer `k+1` starts exactly at
buffer `k`'s start plus buffer `k`'s duration. -/
theorem gapless_chain_aux :
    ∀ (l : List (ℚ × ℚ)) (st : SchedState) (k : ℕ),
      k + 1 < l.length →
      (l.getD (k + 1) (0, 0)).1 ≤
        (startsFrom st l).getD k 0 + (l.getD k (0, 0)).2 →
      (startsFrom st l).getD (k + 1) 0 =
        (startsFrom st l).getD k 0 + (l.getD k (0, 0)).2
  | [], _, _, h, _ => absurd h (by simp)
  | [_], _, k, h, _ => absurd h (by simp)
  | nd1 :: nd2 :: rest, st, 0, _, harr => by
    simp only [startsFrom_cons, List.getD_cons_succ, List.getD_cons_zero] at *
    rw [schedule_fst_of_le _ _ _ (by simpa [schedule_nextStart] using harr),
        schedule_nextStart]
  | nd1 :: nd2 :: rest, st, k + 1, h, harr => by
    simp only [startsFrom_cons, List.getD_cons_succ] at *
    exact gapless_chain_aux (nd2 :: rest) (schedule st nd1.1 nd1.2).2 k
      (by simpa using h) harr

/-! ## Narration Sequencer (`src/services/ttsService.ts`)

Module-level state: `currentPlaybackId` (the cancellation token) and
`currentSource` (the physically playing source, if any).  Each `playTTS`
call creates a request record; the request's promise resolution is its
`result` field.  The machine's events are exactly the synchronous segments
of the TypeScript code, delimited by its asynchronous suspension points:

* `play` — the synchronous prologue of `playTTS` up to issuing the
  synthesis request: the early `return true` paths for a missing API key or
  empty text, otherwise `const myPlaybackId = ++currentPlaybackId` and the
  immediate stop of `currentSource`;
* `stopCommand` — `stopTTS()`: increment the token, stop and null
  `currentSource`;
* `response r out` — the resumption after `await generateContent` for
  request `r`, covering in one synchronous block the staleness check, the
  empty-audio check, decoding (which may fault), the second staleness check
  and scheduling of the source;
* `ended r` — the `source.onended` callback for request `r`'s source. -/

inductive RespOutcome
  | okAudio
  | emptyAudio
  | netErr
  | decodeErr
deriving DecidableEq, Repr

structure TtsRequest where
  myPlaybackId : ℕ
  playing : Bool
  result : Option Bool
deriving DecidableEq, Repr

structure TtsState where
  currentPlaybackId : ℕ
  currentSource : Option ℕ
  requests : List TtsRequest
deriving DecidableEq, Repr

inductive TtsEvent
  | play (hasKey : Bool) (textNonempty : Bool)
  | stopCommand
  | response (r : ℕ) (out : RespOutcome)
  | ended (r : ℕ)
deriving DecidableEq, Repr

/-- The initial module state: `currentPlaybackId = 0`, no source, no
requests issued yet. -/
def ttsInit : TtsState := ⟨0, none, []⟩

/-- One event of the narration machine.  Events whose preconditions do not
hold (unknown request index, wrong phase) cannot occur in the source and
leave the state unchanged. -/
def TtsState.step (s : TtsState) : TtsEvent → TtsState
  | .play hasKey textNonempty =>
    if hasKey = false ∨ textNonempty = false then
      -- `if (!apiKey) return true;  if (!text) return true;`
      -- resolves immediately: no token increment, no source stop
      { s with requests := s.requests ++ [⟨s.currentPlaybackId, false, some true⟩] }
    else
      -- `const myPlaybackId = ++currentPlaybackId;` then stop `currentSource`
      { currentPlaybackId := s.currentPlaybackId + 1
        currentSource := none
        requests := s.requests ++ [⟨s.currentPlaybackId + 1, false, none⟩] }
  | .stopCommand =>
    -- `stopTTS`: `currentPlaybackId++` and stop/null `currentSource`
    { s with currentPlaybackId := s.currentPlaybackId + 1, currentSource := none }
  | .response r out =>
    match s.requests.get? r with
    | none => s
    | some req =>
      if req.result ≠ none ∨ req.playing = true then s
      else
        match out with
        | .netErr =>
          -- the `await` rejected; `catch`:
          -- `if (myPlaybackId === currentPlaybackId) return true; return false;`
          { s with requests := s.requests.set r
                        ({ req with result := some (decide (req.myPlaybackId = s.currentPlaybackId)) }) }
        | .emptyAudio =>
          -- stale token returns false before the audio is inspected;
          -- otherwise `if (!base64Audio) return true;`
          { s with requests := s.requests.set r
                        ({ req with result := some (decide (req.myPlaybackId = s.currentPlaybackId)) }) }
        | .decodeErr =>
          -- a stale token returns false before decoding is attempted;
          -- otherwise the decode fault lands in the same `catch` as `netErr`
          { s with requests := s.requests.set r
                        ({ req with result := some (decide (req.myPlaybackId = s.currentPlaybackId)) }) }
        | .okAudio =>
          if req.myPlaybackId = s.currentPlaybackId then
            -- both staleness checks pass; schedule: `currentSource = source;
            -- source.start();` and leave the promise pending until `onended`
            { s with currentSource := some r
                     requests := s.requests.set r ({ req with playing := true }) }
          else
            -- `if (myPlaybackId !== currentPlaybackId) return false;`
            { s with requests := s.requests.set r ({ req with result := some false }) }
  | .ended r =>
    match s.requests.get? r with
    | none => s
    | some req =>
      if req.playing = false then s
      else if req.myPlaybackId = s.currentPlaybackId then
        -- finished naturally: `currentSource = null; resolve(true);`
        { s with currentSource := none
                 requests := s.requests.set r ({ req with playing := false, result := some true }) }
      else
        -- cut off by a newer request or stop: `resolve(false)` and leave
        -- `currentSource` (which now belongs to a newer request) alone
        { s with requests := s.requests.set r ({ req with playing := false, result := some false }) }

/-- Run a list of events from a state. -/
def TtsState.run (s : TtsState) (es : List TtsEvent) : TtsState :=
  es.foldl TtsState.step s

/-! ## Session Lifecycle Controller (`src/components/LiveTutor.tsx`)

The component's refs and state flags.  `micStreamLive` tracks whether the
`MediaStream` returned by `getUserMedia({ audio: true })` still has live
tracks, i.e. whether the microphone device is still held; `stoppedSources`
records sources on which `.stop()` was called during teardown. -/

structure SessionState where
  inputContext : Option ℕ
  outputContext : Option ℕ
  processor : Option ℕ
  inputSource : Option ℕ
  screenStream : Option ℕ
  screenInterval : Option ℕ
  videoRefPresent : Bool
  videoSrcObject : Option ℕ
  session : Option ℕ
  activeSources : List ℕ
  stoppedSources : List ℕ
  isActive : Bool
  isConnecting : Bool
  isScreenSharing : Bool
  isSharingLoading : Bool
  volume : ℚ
  micStreamLive : Bool
deriving DecidableEq, Repr

/-- Dereference a nullable handle; faults (the TypeScript `TypeError` on a
null member access) when the handle is null. -/
def deref {α : Type} (o : Option α) : Except String α :=
  match o with
  | some a => .ok a
  | none => .error "TypeError: cannot read properties of null"

/-- `stopScreenShare`: clear the frame timer, stop the display-stream
tracks, detach the video element, reset the sharing flags — each step
guarded by a null check. -/
def stopScreenShare (s : SessionState) : Except String SessionState := do
  let s₁ ←
    if s.screenInterval.isSome then do
      let _ ← deref s.screenInterval      -- clearInterval(screenIntervalRef.current)
      pure { s with screenInterval := none }
    else pure s
  let s₂ ←
    if s₁.screenStream.isSome then do
      let _ ← deref s₁.screenStream       -- getTracks().forEach(track => track.stop())
      pure { s₁ with screenStream := none }
    else pure s₁
  let s₃ ←
    if s₂.videoRefPresent then pure { s₂ with videoSrcObject := none }
    else pure s₂
  pure { s₃ with isScreenSharing := false, isSharingLoading := false }

/-- `stopSession`: stop screen sharing, close both audio contexts,
disconnect the processor and input source, stop every active playback
source, reset the UI flags and drop the session reference.  Every nullable
access is guarded; stopping an active source is wrapped in `try/catch`.
Note that the `getUserMedia` microphone stream is not touched: the source
never stores it and never stops its tracks. -/
def stopSession (s : SessionState) : Except String SessionState := do
  let s₀ ← stopScreenShare s
  let s₁ ←
    if s₀.inputContext.isSome then do
      let _ ← deref s₀.inputContext       -- inputContextRef.current.close()
      pure { s₀ with inputContext := none }
    else pure s₀
  let s₂ ←
    if s₁.outputContext.isSome then do
      let _ ← deref s₁.outputContext      -- outputContextRef.current.close()
      pure { s₁ with outputContext := none }
    else pure s₁
  let s₃ ←
    if s₂.processor.isSome then do
      let _ ← deref s₂.processor          -- processorRef.current.disconnect()
      pure { s₂ with processor := none }
    else pure s₂
  let s₄ ←
    if s₃.inputSource.isSome then do
      let _ ← deref s₃.inputSource        -- inputSourceRef.current.disconnect()
      pure { s₃ with inputSource := none }
    else pure s₃
  -- activeSourcesRef.current.forEach(source => { try { source.stop() } catch {} });
  -- activeSourcesRef.current.clear();
  let s₅ := { s₄ with
                stoppedSources := s₄.stoppedSources ++ s₄.activeSources
                activeSources := ([] : List ℕ) }
  pure { s₅ with
           isActive := false
           isConnecting := false
           volume := 0
           session := none }

/-- The component's initial state: every ref null, every flag false. -/
def initSessionState : SessionState :=
  { inputContext := none, outputContext := none, processor := none
    inputSource := none, screenStream := none, screenInterval := none
    videoRefPresent := true, videoSrcObject := none, session := none
    activeSources := [], stoppedSources := []
    isActive := false, isConnecting := false
    isScreenSharing := false, isSharingLoading := false
    volume := 0, micStreamLive := false }

/-- The successful path of `startSession`: `getUserMedia` acquires the
microphone (its tracks become live), both audio contexts, the media-stream
source, the script processor and the session promise are created and stored
in the refs.  The microphone `MediaStream` itself is kept only in a local
variable; no ref records it. -/
def startSession (s : SessionState) : SessionState :=
  { s with
      micStreamLive := true
      inputContext := some 0
      outputContext := some 1
      inputSource := some 2
      processor := some 3
      session := some 4
      isConnecting := true }

/-! ## Helper lemmas -/

theorem get?_set_self {α : Type} (l : List α) (i : ℕ) (a : α) (h : i < l.length) :
    (l.set i a).get? i = some a := by
  induction l generalizing i with
  | nil => simp at h
  | cons b t ih =>
    cases i with
    | zero => rfl
    | succ j => simpa using ih j (by simpa using h)

theorem getElem?_set_self {α : Type} (l : List α) (i : ℕ) (a : α) (h : i < l.length) :
    (l.set i a)[i]? = some a := by
  rw [← List.get?_eq_getElem?]
  exact get?_set_self l i a h

theorem lt_length_of_get? {α : Type} {l : List α} {i : ℕ} {a : α}
    (h : l.get? i = some a) : i < l.length := by
  induction l generalizing i with
  | nil => simp [List.get?] at h
  | cons b t ih =>
    cases i with
    | zero => simp
    | succ j => simpa using ih (by simpa using h)

theorem bytesToInt16_length : ∀ l : List ℕ, (bytesToInt16 l).length = l.length / 2
  | [] => rfl
  | [_] => by simp [bytesToInt16]
  | _ :: _ :: rest => by
    simp only [bytesToInt16, List.length_cons, bytesToInt16_length rest]
    omega

/-- The net effect of `stopSession` on the component state, proved below to
be exactly what `stopSession` returns on every input. -/
def teardownResult (s : SessionState) : SessionState :=
  { s with
      inputContext := none
      outputContext := none
      processor := none
      inputSource := none
      screenStream := none
      screenInterval := none
      videoSrcObject := if s.videoRefPresent then none else s.videoSrcObject
      session := none
      activeSources := ([] : List ℕ)
      stoppedSources := s.stoppedSources ++ s.activeSources
      isActive := false
      isConnecting := false
      isScreenSharing := false
      isSharingLoading := false
      volume := 0 }

theorem stopSession_eq (s : SessionState) : stopSession s = .ok (teardownResult s) := by
  rcases s with ⟨ic, oc, pr, isrc, ss, si, vr, vs, se, asrc, st, ia, icn, iss, isl, vol, mic⟩
  cases ic <;> cases oc <;> cases pr <;> cases isrc <;> cases ss <;> cases si <;> cases vr <;>
    rfl

theorem teardownResult_idem (s : SessionState) :
    teardownResult (teardownResult s) = teardownResult s := by
  rcases s with ⟨ic, oc, pr, isrc, ss, si, vr, vs, se, asrc, st, ia, icn, iss, isl, vol, mic⟩
  cases vr <;> simp [teardownResult]

/-! ## Claims -/

/-- C1: every schedule call starts the buffer at `max(nextStart, now)` and
sets `nextStart` to `start + duration`; consequently, in any back-to-back
sequence where each buffer arrives before its predecessor's playback ends,
buffer `k+1` starts exactly at buffer `k`'s start plus buffer `k`'s
duration; and a buffer arriving after `nextStart` has passed starts at the
current output-clock time. -/
theorem c1_gapless_scheduling :
    (∀ (st : SchedState) (now dur : ℚ),
       (schedule st now dur).1 = max st.nextStart now ∧
       (schedule st now dur).2.nextStart = (schedule st now dur).1 + dur) ∧
    (∀ (st : SchedState) (l : List (ℚ × ℚ)) (k : ℕ),
       k + 1 < l.length →
       (l.getD (k + 1) (0, 0)).1 ≤
         (startsFrom st l).getD k 0 + (l.getD k (0, 0)).2 →
       (startsFrom st l).getD (k + 1) 0 =
         (startsFrom st l).getD k 0 + (l.getD k (0, 0)).2) ∧
    (∀ (st : SchedState) (now dur : ℚ), st.nextStart < now →
       (schedule st now dur).1 = now) := by
  refine ⟨fun st now dur => ⟨schedule_fst st now dur, schedule_nextStart st now dur⟩,
          fun st l k hk harr => gapless_chain_aux l st k hk harr,
          fun st now dur h => ?_⟩
  rw [schedule_fst, max_eq_right h.le]

/-- Witness for C1: two buffers of durations 1 and 2, the second arriving
at time 1/2 (before the first, started at 0, ends at 1), are scheduled
gaplessly: the second starts at 0 + 1. -/
theorem c1_witness :
    (startsFrom ⟨0, [], [], 0⟩ [((0 : ℚ), (1 : ℚ)), ((1 / 2 : ℚ), (2 : ℚ))]).getD 1 0 =
      (startsFrom ⟨0, [], [], 0⟩ [((0 : ℚ), (1 : ℚ)), ((1 / 2 : ℚ), (2 : ℚ))]).getD 0 0 +
        ([((0 : ℚ), (1 : ℚ)), ((1 / 2 : ℚ), (2 : ℚ))].getD 0 (0, 0)).2 :=
  c1_gapless_scheduling.2.1 ⟨0, [], [], 0⟩ [((0 : ℚ), 1), ((1 / 2 : ℚ), 2)] 0
    (by norm_num)
    (by simp [startsFrom_cons, schedule]; norm_num)

/-- C3: after the barge-in interruption handler runs, the active set is
empty, `nextStart` equals the output clock at the moment of interruption,
and every previously active handle has been forcibly stopped. -/
theorem c3_interruption (st : SchedState) (now : ℚ) :
    (interrupt st now).active = [] ∧
    (interrupt st now).nextStart = now ∧
    ∀ h, h ∈ st.active → h ∈ (interrupt st now).stopped := by
  refine ⟨rfl, rfl, fun h hh => ?_⟩
  simp only [interrupt, List.mem_append]
  exact Or.inr hh

/-- Witness for C3: interrupting a scheduler with one active source stops
that source. -/
theorem c3_witness : 7 ∈ (interrupt ⟨3, [7], [], 8⟩ 2).stopped :=
  (c3_interruption ⟨3, [7], [], 8⟩ 2).2.2 7 (by simp)

/-- C4: `nextStart` never decreases across a schedule call (buffer
durations are non-negative), and the interruption handler — the one
operation allowed to regress it — resets it to the current output clock. -/
theorem c4_nextStart_monotone :
    (∀ (st : SchedState) (now dur : ℚ), 0 ≤ dur →
       st.nextStart ≤ (schedule st now dur).2.nextStart) ∧
    (∀ (st : SchedState) (now : ℚ), (interrupt st now).nextStart = now) := by
  constructor
  · intro st now dur hdur
    rw [schedule_nextStart, schedule_fst]
    have h := le_max_left st.nextStart now
    linarith
  · intro st now
    rfl

/-- Witness for C4: a schedule call with a late arrival does not move
`nextStart` backward. -/
theorem c4_witness :
    (⟨3, [], [], 0⟩ : SchedState).nextStart ≤
      (schedule ⟨3, [], [], 0⟩ 5 2).2.nextStart :=
  c4_nextStart_monotone.1 ⟨3, [], [], 0⟩ 5 2 (by norm_num)

/-- C2: in the two-request race (tokens N then N+1, the second issued before
the first's synthesis response arrives) the first request resolves false and
the second resolves true on natural completion; and in general a request
reaches playback only if its captured token equals the current token at the
response resumption, and resolves true at `onended` exactly when its token
still equals the current token at that moment. -/
theorem c2_token_cancellation :
    ((TtsState.run ttsInit
        [.play true true, .play true true, .response 0 .okAudio,
         .response 1 .okAudio, .ended 1]).requests.map TtsRequest.result
       = [some false, some true]) ∧
    (∀ (s : TtsState) (r : ℕ) (req : TtsRequest),
       s.requests.get? r = some req → req.playing = true →
       (((s.step (.ended r)).requests.get? r =
           some { req with playing := false, result := some true }) ↔
         req.myPlaybackId = s.currentPlaybackId)) ∧
    (∀ (s : TtsState) (r : ℕ) (req : TtsRequest),
       s.requests.get? r = some req → req.result = none → req.playing = false →
       (((s.step (.response r .okAudio)).requests.get? r =
           some { req with playing := true }) ↔
         req.myPlaybackId = s.currentPlaybackId)) := by
  refine ⟨by decide, ?_, ?_⟩
  · intro s r req hget hplay
    have hlt := lt_length_of_get? hget
    have hget' : s.requests[r]? = some req := by
      rw [← List.get?_eq_getElem?]
      exact hget
    by_cases htok : req.myPlaybackId = s.currentPlaybackId <;>
      simp [TtsState.step, hget', hplay, htok, getElem?_set_self _ _ _ hlt,
            TtsRequest.mk.injEq]
  · intro s r req hget hres hplay
    have hlt := lt_length_of_get? hget
    have hget' : s.requests[r]? = some req := by
      rw [← List.get?_eq_getElem?]
      exact hget
    by_cases htok : req.myPlaybackId = s.currentPlaybackId <;>
      simp [TtsState.step, hget', hres, hplay, htok, getElem?_set_self _ _ _ hlt,
            TtsRequest.mk.injEq]

/-- Witness for C2: a playing request whose token is still current resolves
true when its source ends. -/
theorem c2_witness :
    ((⟨1, some 0, [⟨1, true, none⟩]⟩ : TtsState).step (.ended 0)).requests.get? 0 =
      some ⟨1, false, some true⟩ :=
  (c2_token_cancellation.2.1 ⟨1, some 0, [⟨1, true, none⟩]⟩ 0 ⟨1, true, none⟩
    (by decide) rfl).mpr rfl

/-- C5: when the synthesis request or the decode step fails, the narration
call resolves true (fail open) if its captured token still equals the
current token at the failure, and false if a newer request or a stop
command has superseded it — regardless of the underlying error. -/
theorem c5_fail_open (s : TtsState) (r : ℕ) (req : TtsRequest) (out : RespOutcome)
    (hget : s.requests.get? r = some req) (hres : req.result = none)
    (hplay : req.playing = false) (herr : out = .netErr ∨ out = .decodeErr) :
    (req.myPlaybackId = s.currentPlaybackId →
       (s.step (.response r out)).requests.get? r =
         some { req with result := some true }) ∧
    (req.myPlaybackId ≠ s.currentPlaybackId →
       (s.step (.response r out)).requests.get? r =
         some { req with result := some false }) := by
  have hlt := lt_length_of_get? hget
  have hget' : s.requests[r]? = some req := by
    rw [← List.get?_eq_getElem?]
    exact hget
  rcases herr with h | h <;> subst h <;>
    refine ⟨fun htok => ?_, fun htok => ?_⟩ <;>
    simp [TtsState.step, hget', hres, hplay, htok, getElem?_set_self _ _ _ hlt]

/-- Witness for C5: a request superseded by `stopTTS` before its response
arrives resolves false on a network error. -/
theorem c5_witness :
    ((⟨2, none, [⟨1, false, none⟩]⟩ : TtsState).step (.response 0 .netErr)).requests.get? 0 =
      some ⟨1, false, some false⟩ :=
  (c5_fail_open ⟨2, none, [⟨1, false, none⟩]⟩ 0 ⟨1, false, none⟩ .netErr
    (by decide) rfl rfl (Or.inl rfl)).2 (by decide)

/-- C10: calling the narration entry point with no API key or empty text
resolves true immediately — the token is not incremented, no synthesis
request is issued (the call's record is resolved at once), and the playing
source is left alone — whereas a call with a key and non-empty text first
increments the token and stops the current source. -/
theorem c10_trivial_call_frame (s : TtsState) (hasKey textNonempty : Bool) :
    (hasKey = false ∨ textNonempty = false →
       (s.step (.play hasKey textNonempty)).currentPlaybackId = s.currentPlaybackId ∧
       (s.step (.play hasKey textNonempty)).currentSource = s.currentSource ∧
       (s.step (.play hasKey textNonempty)).requests =
         s.requests ++ [⟨s.currentPlaybackId, false, some true⟩]) ∧
    (hasKey = true → textNonempty = true →
       (s.step (.play hasKey textNonempty)).currentPlaybackId = s.currentPlaybackId + 1 ∧
       (s.step (.play hasKey textNonempty)).currentSource = none ∧
       (s.step (.play hasKey textNonempty)).requests =
         s.requests ++ [⟨s.currentPlaybackId + 1, false, none⟩]) := by
  cases hasKey <;> cases textNonempty <;> simp [TtsState.step]

/-- Witness for C10: with a source playing and a pending earlier request, an
empty-text call leaves the token and the playing source untouched. -/
theorem c10_witness :
    ((⟨5, some 0, [⟨5, true, none⟩]⟩ : TtsState).step (.play true false)).currentPlaybackId = 5 ∧
    ((⟨5, some 0, [⟨5, true, none⟩]⟩ : TtsState).step (.play true false)).currentSource = some 0 ∧
    ((⟨5, some 0, [⟨5, true, none⟩]⟩ : TtsState).step (.play true false)).requests =
      [⟨5, true, none⟩] ++ [⟨5, false, some true⟩] :=
  (c10_trivial_call_frame ⟨5, some 0, [⟨5, true, none⟩]⟩ true false).1 (Or.inr rfl)

/-- C6: `stopSession` never faults from any component state — including a
state where `startSession` never completed and a state already torn down —
and after it returns, the input/output audio contexts, processor, input
source, screen stream, screen timer and session reference are all null, the
active-source set is empty, and a second call returns the same state. -/
theorem c6_stop_idempotent (s : SessionState) :
    ∃ s', stopSession s = .ok s' ∧
      s'.inputContext = none ∧ s'.outputContext = none ∧ s'.processor = none ∧
      s'.inputSource = none ∧ s'.screenStream = none ∧ s'.screenInterval = none ∧
      s'.session = none ∧ s'.activeSources = [] ∧ s'.isActive = false ∧
      stopSession s' = .ok s' :=
  ⟨teardownResult s, stopSession_eq s, rfl, rfl, rfl, rfl, rfl, rfl, rfl, rfl, rfl,
   by rw [stopSession_eq, teardownResult_idem]⟩

/-- C7 as stated is false: the empty payload has an even byte length (no
malformed-length fault), yet the builder fails — `ctx.createBuffer` rejects
a zero frame count — instead of returning a `0/2/1 = 0`-frame buffer. -/
theorem c7_counterexample :
    ([] : List ℕ).length % 2 = 0 ∧
    pcmToAudioBuffer [] 24000 1 = .error .zeroFrameCount :=
  ⟨rfl, rfl⟩

/-- C7 (amended): a raw PCM payload whose byte length is odd makes the
playback buffer builder fail with a decode error instead of silently
truncating; an even-length payload decodes, without failing, to a buffer of
`byteLength / 2 / channelCount` frames whenever it contains at least one
full frame, while an even-length payload with zero full frames (the empty
payload in the mono case) also fails, because the output context rejects a
zero frame count. -/
theorem c7_decode_malformed_length (data : List ℕ) (rate : ℚ) (numChannels : ℕ)
    (_hch : 0 < numChannels) :
    (data.length % 2 ≠ 0 →
       pcmToAudioBuffer data rate numChannels = .error .oddByteLength) ∧
    (data.length % 2 = 0 → data.length / 2 / numChannels = 0 →
       pcmToAudioBuffer data rate numChannels = .error .zeroFrameCount) ∧
    (data.length % 2 = 0 → 0 < data.length / 2 / numChannels →
       ∃ b, pcmToAudioBuffer data rate numChannels = .ok b ∧
         b.frameCount = data.length / 2 / numChannels) := by
  refine ⟨fun h => by simp [pcmToAudioBuffer, h], fun h hz => ?_, fun h hz => ?_⟩
  · unfold pcmToAudioBuffer
    rw [if_neg (by simpa using h)]
    simp only [bytesToInt16_length]
    rw [if_pos hz]
  · unfold pcmToAudioBuffer
    rw [if_neg (by simpa using h)]
    simp only [bytesToInt16_length]
    rw [if_neg (by omega)]
    exact ⟨_, rfl, rfl⟩

/-- Witness for C7 (amended): three bytes fail to decode; four bytes decode
to a two-frame mono buffer. -/
theorem c7_witness :
    (pcmToAudioBuffer [1, 2, 3] 24000 1 = .error .oddByteLength) ∧
    ∃ b, pcmToAudioBuffer [0, 0, 255, 255] 24000 1 = .ok b ∧
      b.frameCount = ([0, 0, 255, 255] : List ℕ).length / 2 / 1 :=
  ⟨(c7_decode_malformed_length [1, 2, 3] 24000 1 (by norm_num)).1 (by norm_num),
   (c7_decode_malformed_length [0, 0, 255, 255] 24000 1 (by norm_num)).2.2
     (by norm_num) (by norm_num)⟩

/-- C8 as stated is false: the sample `2/3` is encoded by the positive
branch to `⌊2/3 * 32767⌋ = 21844` and decoded to `21844 / 32768`, a
round-trip error of `1/24576 > 1/32768`. -/
theorem c8_counterexample :
    ¬ |(2 / 3 : ℚ) - decodeSample (f32ToI16Sample (2 / 3))| ≤ 1 / 32768 := by
  have henc : f32ToI16Sample (2 / 3 : ℚ) = 21844 := by
    have hclamp : max (-1 : ℚ) (min 1 (2 / 3)) = 2 / 3 := by norm_num
    simp only [f32ToI16Sample, hclamp]
    rw [if_neg (by norm_num), Int.floor_eq_iff]
    constructor <;> norm_num
  rw [henc]
  simp only [decodeSample]
  rw [abs_of_nonneg (by push_cast; norm_num)]
  push_cast
  norm_num

/-- C8 (amended): because positive samples are scaled by `32767` on encode
but divided by `32768` on decode, the round-trip error is bounded by
`1/16384 = 2/32768` (not `1/32768`); the `1/32768` bound does hold for all
non-positive samples. -/
theorem c8_roundtrip_amended (s : ℚ) (h₁ : -1 ≤ s) (h₂ : s ≤ 1) :
    |s - decodeSample (f32ToI16Sample s)| ≤ 1 / 16384 ∧
    (s ≤ 0 → |s - decodeSample (f32ToI16Sample s)| ≤ 1 / 32768) := by
  have hclamp : max (-1) (min 1 s) = s := by rw [min_eq_right h₂, max_eq_right h₁]
  by_cases hs : s < 0
  · have henc : f32ToI16Sample s = ⌈s * 32768⌉ := by
      simp only [f32ToI16Sample, hclamp]
      exact if_pos hs
    have hle : (s * 32768 : ℚ) ≤ (⌈s * 32768⌉ : ℚ) := Int.le_ceil _
    have hlt : ((⌈s * 32768⌉ : ℚ)) < s * 32768 + 1 := Int.ceil_lt_add_one _
    rw [henc]
    simp only [decodeSample]
    constructor
    · rw [abs_le]
      constructor <;> linarith
    · intro _
      rw [abs_le]
      constructor <;> linarith
  · push_neg at hs
    have henc : f32ToI16Sample s = ⌊s * 32767⌋ := by
      simp only [f32ToI16Sample, hclamp]
      exact if_neg (not_lt.mpr hs)
    have hle : ((⌊s * 32767⌋ : ℚ)) ≤ s * 32767 := Int.floor_le _
    have hlt : (s * 32767 : ℚ) < ⌊s * 32767⌋ + 1 := Int.lt_floor_add_one _
    rw [henc]
    simp only [decodeSample]
    constructor
    · rw [abs_le]
      constructor <;> linarith
    · intro hs0
      have hz : s = 0 := le_antisymm hs0 hs
      subst hz
      rw [abs_le]
      constructor <;> [skip; skip] <;> linarith

/-- Witness for C8 (amended): the sample `1/2` round-trips within
`1/16384`. -/
theorem c8_witness :
    |(1 / 2 : ℚ) - decodeSample (f32ToI16Sample (1 / 2))| ≤ 1 / 16384 :=
  (c8_roundtrip_amended (1 / 2) (by norm_num) (by norm_num)).1

/-- C9 is violated by the code: after a successful `startSession`, every
teardown path runs `stopSession`, which closes the audio contexts and nulls
every ref but never stops the tracks of the `getUserMedia` microphone
stream (contrast `stopScreenShare`, which does stop the display tracks), so
the session ends — `isActive` is false — while the input device is still
held. -/
theorem c9_mic_not_released :
    ∃ s', stopSession (startSession initSessionState) = .ok s' ∧
      s'.micStreamLive = true ∧ s'.isActive = false :=
  ⟨teardownResult (startSession initSessionState),
   stopSession_eq (startSession initSessionState), rfl, rfl⟩

end OmniViz
